import Mathlib

/-!
Verification of the action-invocation engine in
`src/packages/sdk/src/engine.ts` of the mediaurl-js repository.

The engine's `handleAction` function is shallowly embedded below.  JavaScript
values are modelled by `JVal` (with an explicit `undef` constructor, since the
engine distinguishes `undefined` from every other value), thrown values by
`JErr` (message, `noBacktraceLog` flag, and the raw thrown value, used by the
`error.message || error` fallback), and the special `CacheFoundError` control
signal by `Thrown.cacheFound`.  Observable effects of one invocation
(signature validation calls, handler invocation, inline-cache `.set` and
`.setError` calls, `console.warn` logging, and the terminal `responder.send`)
are collected into an ordered `Event` trace, and a failure that escapes
`handleAction` uncaught is returned alongside the trace.

External collaborators (the addon, the signature validator, the schema
validator registry, the migration registry, and the cache backend's
`inline` lookup) are parameters of the `Env` structure, so every theorem
quantifies over their behaviour.  The caller-supplied handler is modelled by
`HandlerProg`: a handler either returns a value, throws an error, or calls the
`requestCache` capability and continues; this is exactly the interaction
surface the engine exposes to handlers that the claims talk about.

The `Responder` class and the cache module are not part of the sources under
verification; the few facts needed about them (`responderSend`,
`inlineThrow`) are modelled from the specification and marked as such.
-/

namespace Engine

/-- A JavaScript value, as far as the engine inspects values: it compares
against `null` and `undefined`, builds `{ error: ... }` objects, and reads the
`kind` field of an object. -/
inductive JVal where
  | undef : JVal
  | null : JVal
  | str : String → JVal
  | num : Int → JVal
  | bool : Bool → JVal
  | obj : List (String × JVal) → JVal

/-- True exactly for the JavaScript value `undefined`; mirrors the engine's
check `error.result !== undefined`. -/
def JVal.isUndef : JVal → Bool
  | JVal.undef => true
  | _ => false

/-- A thrown JavaScript error value: its `message`, its `noBacktraceLog`
property (absent/false for ordinary errors, set by `SilentError`), and the raw
thrown value itself (used when `error.message` is falsy). -/
structure JErr where
  message : String
  noBacktraceLog : Bool
  raw : JVal

/-- The value the engine puts into the error payload: `error.message || error`
(the raw thrown value when the message is empty, i.e. falsy). -/
def JErr.errVal (e : JErr) : JVal :=
  if e.message = "" then e.raw else JVal.str e.message

/-- The `{ error: error.message || error }` payload built by the catch block
of `handleAction` (engine.ts line 186). -/
def errPayload (e : JErr) : JVal :=
  JVal.obj [("error", JErr.errVal e)]

/-- The `SilentError` class of engine.ts lines 22-29: an error whose
`noBacktraceLog` property is set to `true` by the constructor. -/
def SilentError (message : String) : JErr :=
  { message := message, noBacktraceLog := true, raw := JVal.obj [] }

/-- The plain `Error("Nothing found")` thrown by the null-result promotion of
engine.ts line 158; an ordinary error, so `noBacktraceLog` is false. -/
def nothingFoundErr : JErr :=
  { message := "Nothing found", noBacktraceLog := false, raw := JVal.obj [] }

/-- The plain `Error` thrown by the `requestCache` closure when a handler asks
for a second inline cache entry (engine.ts line 118). -/
def requestCacheAlreadySetUpErr : JErr :=
  { message := "Request cache is already set up", noBacktraceLog := false,
    raw := JVal.obj [] }

/-- A value thrown inside the `try` block of `handleAction`: either the
`CacheFoundError` control signal (carrying its `result` and `error` fields,
with `JVal.undef` standing for an absent field) or an ordinary error. -/
inductive Thrown where
  | cacheFound : JVal → JVal → Thrown
  | err : JErr → Thrown

/-- The state of the cache backend for one key, as observed through
`CacheHandle.inline`: no prior attempt, a recorded success, or a recorded
failure. -/
inductive InlineResult where
  | absent : InlineResult
  | found : JVal → InlineResult
  | foundError : JVal → InlineResult

/-- Modelled from the spec: the cache module (not under the verified sources)
raises `CacheFoundError` from `CacheHandle.inline` when a prior outcome is
recorded.  A recorded success carries the stored value in the `result` field
and leaves `error` undefined; a recorded failure leaves `result` undefined and
carries the stored payload in the `error` field.  When the entry is absent no
error is raised and the entry is handed to the caller. -/
def inlineThrow : InlineResult → Option Thrown
  | InlineResult.absent => none
  | InlineResult.found v => some (Thrown.cacheFound v JVal.undef)
  | InlineResult.foundError p => some (Thrown.cacheFound JVal.undef p)

/-- One observable step of an invocation, in program order. -/
inductive Event where
  | handleTask : JVal → Event
  | resolveHandler : String → Event
  | validateSig : String → Event
  | deriveCache : Event
  | invokeHandler : Event
  | inlineSet : String → JVal → Event
  | inlineSetError : String → JErr → Event
  | logWarn : JErr → Event
  | send : String → Nat → JVal → Event
  | detach : Event

/-- Recognizes the terminal `responder.send` event. -/
def Event.isSend : Event → Bool
  | Event.send _ _ _ => true
  | _ => false

/-- Recognizes a call to `validateSignature`. -/
def Event.isValidateSig : Event → Bool
  | Event.validateSig _ => true
  | _ => false

/-- Recognizes the handler invocation event. -/
def Event.isInvoke : Event → Bool
  | Event.invokeHandler => true
  | _ => false

/-- Recognizes an `inlineCache.set` call. -/
def Event.isInlineSet : Event → Bool
  | Event.inlineSet _ _ => true
  | _ => false

/-- Recognizes an `inlineCache.setError` call. -/
def Event.isInlineSetError : Event → Bool
  | Event.inlineSetError _ _ => true
  | _ => false

/-- Recognizes a `console.warn` log event. -/
def Event.isLogWarn : Event → Bool
  | Event.logWarn _ => true
  | _ => false

/-- A registered schema validator for one action: its request and response
transforms, each able to fail with a `ValidationError`. -/
structure Validator where
  request : JVal → Except JErr JVal
  response : JVal → Except JErr JVal

/-- A registered migration entry for one action.  The engine tests the
`request` and `response` properties separately for truthiness
(`migrations[action]?.request`), so each transform is optional here.  The
response transform additionally receives the migrated input. -/
structure MigEntry where
  request : Option (JVal → Except JErr JVal)
  response : Option (JVal → JVal → Except JErr JVal)

/-- A caller-supplied handler, described by its interaction with the engine:
it returns a value, throws an error, or awaits the `requestCache` capability
with some key and continues.  A throw from `requestCache` propagates out of
the handler. -/
inductive HandlerProg where
  | ret : JVal → HandlerProg
  | throwErr : JErr → HandlerProg
  | callRequestCache : String → HandlerProg → HandlerProg

/-- The external collaborators of one invocation: process configuration, the
addon, the signature validator, the migration registry, the schema validator
registry, and the cache backend's per-key inline state. -/
structure Env where
  skipAuth : Bool
  replayMode : Bool
  addonId : String
  addonType : String
  getActionHandler : String → Except JErr HandlerProg
  validateSignature : String → Except JErr JVal
  migrations : String → Option MigEntry
  getActionValidator : String → String → Validator
  inlineLookup : String → InlineResult

/-- Association-list field lookup on an object value (first match wins), used
to read `output.kind`. -/
def lookupField : List (String × JVal) → String → Option JVal
  | [], _ => none
  | (n, v) :: rest, key => if n = key then some v else lookupField rest key

/-- The response classification of engine.ts lines 192-195: an output is
task-shaped when it is an object whose `kind` field is the string
`"taskRequest"`. -/
def isTaskShaped : JVal → Bool
  | JVal.obj fields =>
    match lookupField fields "kind" with
    | some (JVal.str s) => s == "taskRequest"
    | _ => false
  | _ => false

/-- The `type` argument passed to `responder.send`. -/
def responseKind (out : JVal) : String :=
  if isTaskShaped out then "task" else "response"

/-- The trailing events of an invocation that reaches the send: the terminal
`responder.send(type, statusCode, output)` followed by the defensive
`responder.setSendResponse(id, null)` detach (engine.ts lines 196-197). -/
def respondEvents (statusCode : Nat) (out : JVal) : List Event :=
  [Event.send (responseKind out) statusCode out, Event.detach]

/-- The `requestCache` closure of engine.ts lines 117-121, acting on the
`inlineCache` variable (`none` when unset).  A second call while an entry
exists throws the programmer error and leaves the state unchanged; a first
call consults the backend's inline state: an absent entry is created
(`inlineCache` becomes the key), a recorded outcome raises `CacheFoundError`
before the assignment, leaving `inlineCache` unset. -/
def requestCache (lookup : String → InlineResult) (ic : Option String)
    (key : String) : Option String × Except Thrown Unit :=
  match ic with
  | some k => (some k, Except.error (Thrown.err requestCacheAlreadySetUpErr))
  | none =>
    match inlineThrow (lookup key) with
    | some t => (none, Except.error t)
    | none => (some key, Except.ok ())

/-- Runs a handler against the `requestCache` capability, threading the
`inlineCache` state; returns the final state and the handler's outcome. -/
def runHandler (lookup : String → InlineResult) :
    HandlerProg → Option String → Option String × Except Thrown JVal
  | HandlerProg.ret v, ic => (ic, Except.ok v)
  | HandlerProg.throwErr e, ic => (ic, Except.error (Thrown.err e))
  | HandlerProg.callRequestCache key next, ic =>
    match requestCache lookup ic key with
    | (ic2, Except.ok _) => runHandler lookup next ic2
    | (ic2, Except.error t) => (ic2, Except.error t)

/-- The default-error switch of engine.ts lines 155-160: for the actions
`"resolve"` and `"captcha"` a handler output of exactly `null` is promoted to
a thrown `Error("Nothing found")`. -/
def nullPromote (action : String) : Except Thrown JVal → Except Thrown JVal
  | Except.ok JVal.null =>
    if action = "resolve" ∨ action = "captcha" then
      Except.error (Thrown.err nothingFoundErr)
    else Except.ok JVal.null
  | o => o

/-- The request-transform selection of engine.ts lines 103-107: the migration
entry's request transform when one is registered and present, else the
action's schema validator's request transform. -/
def selectReqTransform (migs : String → Option MigEntry) (vtor : Validator)
    (action : String) : JVal → Except JErr JVal :=
  match migs action with
  | some m =>
    match m.request with
    | some f => f
    | none => vtor.request
  | none => vtor.request

/-- The response-transform selection of engine.ts lines 163-167: the migration
entry's response transform when one is registered and present (receiving the
migrated input and the handler output), else the schema validator's response
transform (receiving only the output). -/
def selectRespTransform (migs : String → Option MigEntry) (vtor : Validator)
    (action : String) : JVal → JVal → Except JErr JVal :=
  match migs action with
  | some m =>
    match m.response with
    | some g => g
    | none => fun _ o => vtor.response o
  | none => fun _ o => vtor.response o

/-- Applies the selected response transform to a successful handler outcome;
a `ValidationError` from the transform becomes a thrown error, and a failed
outcome passes through untouched. -/
def migrateResponse (migs : String → Option MigEntry) (vtor : Validator)
    (action : String) (input2 : JVal) :
    Except Thrown JVal → Except Thrown JVal
  | Except.ok v =>
    match selectRespTransform migs vtor action input2 v with
    | Except.ok w => Except.ok w
    | Except.error e => Except.error (Thrown.err e)
  | Except.error t => Except.error t

/-- The schema validator the dispatcher uses for one invocation:
`getActionValidator(addon.getType(), action)` (engine.ts line 101). -/
def vtorOf (env : Env) (action : String) : Validator :=
  env.getActionValidator env.addonType action

/-- Everything between the handler call and the catch block: run the handler,
apply null-result promotion, apply the response migration.  Returns the final
`inlineCache` state and the value or thrown error reaching the catch. -/
def invokeOutcome (env : Env) (action : String) (input2 : JVal)
    (handler : HandlerProg) : Option String × Except Thrown JVal :=
  ((runHandler env.inlineLookup handler none).1,
   migrateResponse env.migrations (vtorOf env action) action input2
     (nullPromote action (runHandler env.inlineLookup handler none).2))

/-- The `inlineCache.set(output)` call of engine.ts line 170, as a trace:
present exactly when an inline entry is engaged. -/
def setEvents : Option String → JVal → List Event
  | some k, w => [Event.inlineSet k w]
  | none, _ => []

/-- The `inlineCache.setError(error)` call of engine.ts line 182, as a trace:
present exactly when an inline entry is engaged. -/
def setErrorEvents : Option String → JErr → List Event
  | some k, e => [Event.inlineSetError k e]
  | none, _ => []

/-- The conditional `console.warn(error)` of engine.ts line 187: logged unless
the error's `noBacktraceLog` property is true. -/
def warnEvents (e : JErr) : List Event :=
  if e.noBacktraceLog then [] else [Event.logWarn e]

/-- The catch block of engine.ts lines 171-188.  A `CacheFoundError` with a
defined `result` yields that value at status 200; one with an undefined
`result` yields status 500 with `{ error: error.error }`; neither touches the
inline entry nor logs.  Any other error is recorded into the engaged inline
entry via `.setError`, yields status 500 with `{ error: message || error }`,
and is logged unless silent. -/
def catchBlock (ic : Option String) : Thrown → List Event × Nat × JVal
  | Thrown.cacheFound r p =>
    if r.isUndef then ([], 500, JVal.obj [("error", p)])
    else ([], 200, r)
  | Thrown.err e => (setErrorEvents ic e ++ warnEvents e, 500, errPayload e)

/-- The whole `try`/`catch` of engine.ts lines 139-189, given the outcome of
the invoke-and-migrate phase: on success the final output is recorded into
the engaged inline entry and delivered at status 200; on a throw the catch
block decides. -/
def finishTry : Option String × Except Thrown JVal → List Event × Nat × JVal
  | (ic, Except.ok w) => (Event.invokeHandler :: setEvents ic w, 200, w)
  | (ic, Except.error t) =>
    let c := catchBlock ic t
    (Event.invokeHandler :: c.1, c.2.1, c.2.2)

/-- The full body of the `try`/`catch`: handler, null promotion, response
migration, inline-entry completion, error handling. -/
def runTry (env : Env) (action : String) (input2 : JVal)
    (handler : HandlerProg) : List Event × Nat × JVal :=
  finishTry (invokeOutcome env action input2 handler)

/-- The signature-exemption condition of engine.ts lines 88-93: the bypass
environment flag, the `"selftest"` and `"addon"` actions, and the
`"repository"` action of a repository-type addon. -/
def exemptFromAuth (env : Env) (action : String) : Bool :=
  env.skipAuth || action == "selftest" || action == "addon" ||
    (env.addonType == "repository" && action == "repository")

/-- The signature-validation trace: empty when the invocation is exempt, one
`validateSig` call otherwise (regardless of whether the call succeeds). -/
def sigEvents (env : Env) (action : String) (sig : String) : List Event :=
  if exemptFromAuth env action then [] else [Event.validateSig sig]

/-- The `sigData` computation of engine.ts lines 88-94: `null` (here `none`)
when exempt, otherwise the result of `validateSignature(sig)`, whose failure
propagates. -/
def sigResult (env : Env) (action : String) (sig : String) :
    Except JErr (Option JVal) :=
  if exemptFromAuth env action then Except.ok none
  else
    match env.validateSignature sig with
    | Except.ok d => Except.ok (some d)
    | Except.error e => Except.error e

/-- The `testMode` flag of engine.ts line 140, passed to the task capability
factories. -/
def testMode (env : Env) (action : String) : Bool :=
  env.replayMode || action == "selftest"

/-- The pipeline after handler resolution: signature validation, request
migration, cache derivation, the `try`/`catch`, and the terminal send.  A
failure of signature validation or of the request transform escapes this
function uncaught (it is raised outside the `try` of engine.ts). -/
def afterResolve (env : Env) (action : String) (input : JVal) (sig : String)
    (handler : HandlerProg) : List Event × Option JErr :=
  match sigResult env action sig with
  | Except.error e => (sigEvents env action sig, some e)
  | Except.ok _ =>
    match selectReqTransform env.migrations (vtorOf env action) action input with
    | Except.error e => (sigEvents env action sig, some e)
    | Except.ok input2 =>
      let r := runTry env action input2 handler
      (sigEvents env action sig ++
        Event.deriveCache :: (r.1 ++ respondEvents r.2.1 r.2.2), none)

/-- The `handleAction` function of engine.ts lines 64-198.  The reserved
`"task"` action is redirected to `handleTask` before anything else; otherwise
the handler is resolved (a failure escapes uncaught, before the responder
exists) and the rest of the pipeline runs.  The returned trace lists the
observable effects in order; the second component is the error escaping
`handleAction` uncaught, if any. -/
def handleAction (env : Env) (action : String) (input : JVal) (sig : String) :
    List Event × Option JErr :=
  if action = "task" then ([Event.handleTask input], none)
  else
    match env.getActionHandler action with
    | Except.error e => ([Event.resolveHandler action], some e)
    | Except.ok handler =>
      let r := afterResolve env action input sig handler
      (Event.resolveHandler action :: r.1, r.2)

/-- State of a `Responder`: whether the terminal send has already happened. -/
structure ResponderState where
  sent : Bool

/-- The error a `Responder` raises on a second terminal send. -/
def respAlreadySentErr : JErr :=
  { message := "A response was already sent", noBacktraceLog := false,
    raw := JVal.obj [] }

/-- Modelled from the spec: the `Responder` class lives in the tasks module,
which is not under the verified sources; per the specification it guarantees
exactly one successful terminal send per invocation and rejects a second
call. -/
def responderSend (st : ResponderState) : Except JErr ResponderState :=
  if st.sent then Except.error respAlreadySentErr
  else Except.ok { sent := true }

/-! ### Concrete environments used by witnesses and counterexamples -/

/-- A schema validator that accepts everything unchanged. -/
def idValidator : Validator :=
  { request := fun v => Except.ok v, response := fun v => Except.ok v }

/-- An `UnknownActionError` as raised by `addon.getActionHandler`. -/
def unknownActionErr : JErr :=
  { message := "Unknown action: foo", noBacktraceLog := false, raw := JVal.obj [] }

/-- A `ValidationError` as raised by a schema validator's request transform. -/
def validationErr : JErr :=
  { message := "Request validation failed", noBacktraceLog := false,
    raw := JVal.obj [] }

/-- An ordinary error thrown by a handler body. -/
def handlerBoomErr : JErr :=
  { message := "boom", noBacktraceLog := false, raw := JVal.obj [] }

/-- A baseline environment: a worker addon whose handlers exist for every
action, a signature validator that accepts, no registered migrations, the
identity schema validator, and an empty cache backend. -/
def baseEnv : Env :=
  { skipAuth := false
    replayMode := false
    addonId := "demo"
    addonType := "worker"
    getActionHandler := fun _ => Except.ok (HandlerProg.ret JVal.null)
    validateSignature := fun _ => Except.ok (JVal.str "sigdata")
    migrations := fun _ => none
    getActionValidator := fun _ _ => idValidator
    inlineLookup := fun _ => InlineResult.absent }

/-- An environment whose addon has no handler for any action. -/
def resolveFailEnv : Env :=
  { baseEnv with getActionHandler := fun _ => Except.error unknownActionErr }

/-- An environment whose schema validator rejects every request. -/
def reqMigFailEnv : Env :=
  { baseEnv with
    getActionValidator := fun _ _ =>
      { request := fun _ => Except.error validationErr
        response := fun v => Except.ok v } }

/-- An environment whose handler throws an ordinary error. -/
def throwingEnv : Env :=
  { baseEnv with
    getActionHandler := fun _ => Except.ok (HandlerProg.throwErr handlerBoomErr) }

/-- An environment whose handler engages the dedup capability on key `"k"`
and then returns the string `"out"`; the backend has no prior record. -/
def dedupEnv : Env :=
  { baseEnv with
    getActionHandler := fun _ =>
      Except.ok (HandlerProg.callRequestCache "k"
        (HandlerProg.ret (JVal.str "out"))) }

/-- An environment whose handler engages the dedup capability on key `"k"`
while the backend has a recorded success with the value `"cached"`. -/
def cacheHitEnv : Env :=
  { dedupEnv with inlineLookup := fun _ => InlineResult.found (JVal.str "cached") }

/-- An environment whose handler engages the dedup capability on key `"k"`
while the backend has a recorded success whose stored value is `undefined`. -/
def cacheHitUndefEnv : Env :=
  { dedupEnv with inlineLookup := fun _ => InlineResult.found JVal.undef }

/-- An environment whose handler engages the dedup capability on key `"k"`
while the backend has a recorded failure with payload `"prior failure"`. -/
def cacheHitErrEnv : Env :=
  { dedupEnv with
    inlineLookup := fun _ => InlineResult.foundError (JVal.str "prior failure") }

/-- An environment whose handler engages the dedup capability on key `"k"`
and then throws; the backend has no prior record, so the entry is engaged. -/
def dedupFailEnv : Env :=
  { baseEnv with
    getActionHandler := fun _ =>
      Except.ok (HandlerProg.callRequestCache "k"
        (HandlerProg.throwErr handlerBoomErr)) }

/-- A sample migration request transform. -/
def sampleMigReq : JVal → Except JErr JVal :=
  fun _ => Except.ok (JVal.str "migrated request")

/-- A sample migration response transform. -/
def sampleMigResp : JVal → JVal → Except JErr JVal :=
  fun _ _ => Except.ok (JVal.str "migrated response")

/-- A migration registry with one fully populated entry for `"item"`. -/
def sampleMigs : String → Option MigEntry :=
  fun a =>
    if a = "item" then some { request := some sampleMigReq, response := some sampleMigResp }
    else none

/-- The ordered list of `(type, statusCode, output)` triples handed to
`responder.send` during one invocation. -/
def sends (evs : List Event) : List (String × Nat × JVal) :=
  evs.filterMap fun e =>
    match e with
    | Event.send k s p => some (k, s, p)
    | _ => none

/-! ### Pipeline shape lemmas -/

/-- A handler-resolution failure escapes `handleAction` before the responder
exists: the trace records only the resolution attempt and the error is
re-raised to the caller. -/
theorem handleAction_resolveErr (env : Env) (action : String) (input : JVal)
    (sig : String) (e : JErr) (hne : action ≠ "task")
    (hres : env.getActionHandler action = Except.error e) :
    handleAction env action input sig = ([Event.resolveHandler action], some e) := by
  unfold handleAction
  rw [if_neg hne, hres]

/-- After a successful handler resolution the rest of the pipeline decides
the result. -/
theorem handleAction_resolveOk (env : Env) (action : String) (input : JVal)
    (sig : String) (handler : HandlerProg) (hne : action ≠ "task")
    (hres : env.getActionHandler action = Except.ok handler) :
    handleAction env action input sig =
      (Event.resolveHandler action :: (afterResolve env action input sig handler).1,
       (afterResolve env action input sig handler).2) := by
  unfold handleAction
  rw [if_neg hne, hres]

/-- A signature-validation failure escapes `afterResolve` uncaught. -/
theorem afterResolve_sigErr (env : Env) (action : String) (input : JVal)
    (sig : String) (handler : HandlerProg) (e : JErr)
    (hsig : sigResult env action sig = Except.error e) :
    afterResolve env action input sig handler = (sigEvents env action sig, some e) := by
  unfold afterResolve
  rw [hsig]

/-- A request-migration failure escapes `afterResolve` uncaught. -/
theorem afterResolve_migErr (env : Env) (action : String) (input : JVal)
    (sig : String) (handler : HandlerProg) (d : Option JVal) (e : JErr)
    (hsig : sigResult env action sig = Except.ok d)
    (hmig : selectReqTransform env.migrations (vtorOf env action) action input =
      Except.error e) :
    afterResolve env action input sig handler = (sigEvents env action sig, some e) := by
  unfold afterResolve
  rw [hsig, hmig]

/-- When signature validation and request migration both succeed, the
invocation reaches the `try` block and always ends in a terminal send. -/
theorem afterResolve_reach (env : Env) (action : String) (input : JVal)
    (sig : String) (handler : HandlerProg) (d : Option JVal) (input2 : JVal)
    (hsig : sigResult env action sig = Except.ok d)
    (hmig : selectReqTransform env.migrations (vtorOf env action) action input =
      Except.ok input2) :
    afterResolve env action input sig handler =
      (sigEvents env action sig ++
        Event.deriveCache :: ((runTry env action input2 handler).1 ++
          respondEvents (runTry env action input2 handler).2.1
            (runTry env action input2 handler).2.2),
       none) := by
  unfold afterResolve
  rw [hsig, hmig]

/-- The full trace of an invocation that reaches the `try` block. -/
theorem handleAction_reach (env : Env) (action : String) (input : JVal)
    (sig : String) (handler : HandlerProg) (d : Option JVal) (input2 : JVal)
    (hne : action ≠ "task")
    (hres : env.getActionHandler action = Except.ok handler)
    (hsig : sigResult env action sig = Except.ok d)
    (hmig : selectReqTransform env.migrations (vtorOf env action) action input =
      Except.ok input2) :
    handleAction env action input sig =
      (Event.resolveHandler action :: (sigEvents env action sig ++
        Event.deriveCache :: ((runTry env action input2 handler).1 ++
          respondEvents (runTry env action input2 handler).2.1
            (runTry env action input2 handler).2.2)),
       none) := by
  rw [handleAction_resolveOk env action input sig handler hne hres,
    afterResolve_reach env action input sig handler d input2 hsig hmig]

/-- Rewrites `runTry` once the invoke-and-migrate outcome is known. -/
theorem runTry_eq (env : Env) (action : String) (input2 : JVal)
    (handler : HandlerProg) (ic : Option String) (o : Except Thrown JVal)
    (h : invokeOutcome env action input2 handler = (ic, o)) :
    runTry env action input2 handler = finishTry (ic, o) := by
  unfold runTry
  rw [h]

/-! ### Counting lemmas over traces -/

/-- The `.set`/`.setError`/`console.warn` fragments contain no send. -/
theorem setEvents_countP_isSend (ic : Option String) (w : JVal) :
    (setEvents ic w).countP Event.isSend = 0 := by
  cases ic <;> simp [setEvents, Event.isSend]

/-- The `.setError` fragment contains no send. -/
theorem setErrorEvents_countP_isSend (ic : Option String) (e : JErr) :
    (setErrorEvents ic e).countP Event.isSend = 0 := by
  cases ic <;> simp [setErrorEvents, Event.isSend]

/-- The logging fragment contains no send. -/
theorem warnEvents_countP_isSend (e : JErr) :
    (warnEvents e).countP Event.isSend = 0 := by
  unfold warnEvents
  by_cases h : e.noBacktraceLog <;> simp [h, Event.isSend]

/-- The catch block performs no send of its own. -/
theorem catchBlock_countP_isSend (ic : Option String) (t : Thrown) :
    ((catchBlock ic t).1).countP Event.isSend = 0 := by
  cases t with
  | cacheFound r p =>
    by_cases h : r.isUndef <;> simp [catchBlock, h]
  | err e =>
    simp [catchBlock, List.countP_append, setErrorEvents_countP_isSend,
      warnEvents_countP_isSend]

/-- The whole `try`/`catch` performs no send of its own. -/
theorem finishTry_countP_isSend (pr : Option String × Except Thrown JVal) :
    ((finishTry pr).1).countP Event.isSend = 0 := by
  obtain ⟨ic, o⟩ := pr
  cases o with
  | ok w => simp [finishTry, List.countP_cons, Event.isSend, setEvents_countP_isSend]
  | error t =>
    simp [finishTry, List.countP_cons, Event.isSend, catchBlock_countP_isSend]

/-- The signature step performs no send. -/
theorem sigEvents_countP_isSend (env : Env) (action : String) (sig : String) :
    (sigEvents env action sig).countP Event.isSend = 0 := by
  unfold sigEvents
  by_cases h : exemptFromAuth env action <;> simp [h, Event.isSend]

/-- The respond step performs exactly one send. -/
theorem respondEvents_countP_isSend (st : Nat) (out : JVal) :
    (respondEvents st out).countP Event.isSend = 1 := by
  simp [respondEvents, Event.isSend]

/-- Neither the catch block nor the inline-entry completion validates a
signature. -/
theorem finishTry_countP_isValidateSig (pr : Option String × Except Thrown JVal) :
    ((finishTry pr).1).countP Event.isValidateSig = 0 := by
  obtain ⟨ic, o⟩ := pr
  cases o with
  | ok w =>
    cases ic <;> simp [finishTry, setEvents, Event.isValidateSig]
  | error t =>
    cases t with
    | cacheFound r p =>
      by_cases h : r.isUndef <;>
        simp [finishTry, catchBlock, h, Event.isValidateSig]
    | err e =>
      cases ic <;>
        by_cases h : e.noBacktraceLog <;>
          simp [finishTry, catchBlock, setErrorEvents, warnEvents, h,
            Event.isValidateSig, List.countP_append]

/-- The number of `validateSignature` calls recorded by the signature step. -/
theorem sigEvents_countP_isValidateSig (env : Env) (action : String) (sig : String) :
    (sigEvents env action sig).countP Event.isValidateSig =
      if exemptFromAuth env action then 0 else 1 := by
  unfold sigEvents
  by_cases h : exemptFromAuth env action <;> simp [h, Event.isValidateSig]

/-- The signature step contributes nothing to any count that ignores
`validateSig` events. -/
theorem sigEvents_countP_zero (env : Env) (action : String) (sig : String)
    (pred : Event → Bool) (h : ∀ s, pred (Event.validateSig s) = false) :
    (sigEvents env action sig).countP pred = 0 := by
  unfold sigEvents
  by_cases hx : exemptFromAuth env action <;> simp [hx, h]

/-- The respond step contributes nothing to any count that ignores sends and
the detach. -/
theorem respondEvents_countP_zero (st : Nat) (out : JVal) (pred : Event → Bool)
    (h1 : ∀ k s p, pred (Event.send k s p) = false)
    (h2 : pred Event.detach = false) :
    (respondEvents st out).countP pred = 0 := by
  simp [respondEvents, h1, h2]

/-- The signature step contains no send triples. -/
theorem sends_sigEvents (env : Env) (action : String) (sig : String) :
    sends (sigEvents env action sig) = [] := by
  unfold sigEvents
  by_cases hx : exemptFromAuth env action <;> simp [hx, sends]

/-! ### Reduction lemmas for the try/catch -/

/-- A successful invoke-and-migrate phase records the output into the engaged
entry and delivers it at status 200. -/
theorem finishTry_ok (ic : Option String) (w : JVal) :
    finishTry (ic, Except.ok w) = (Event.invokeHandler :: setEvents ic w, 200, w) := rfl

/-- An ordinary thrown error records the failure into the engaged entry, logs
unless silent, and delivers the error payload at status 500. -/
theorem finishTry_err (ic : Option String) (e : JErr) :
    finishTry (ic, Except.error (Thrown.err e)) =
      (Event.invokeHandler :: (setErrorEvents ic e ++ warnEvents e), 500,
        errPayload e) := rfl

/-- A cache short-circuit with a defined `result` delivers the cached value
at status 200, touching nothing else. -/
theorem finishTry_cacheFound_defined (ic : Option String) (r p : JVal)
    (hu : r.isUndef = false) :
    finishTry (ic, Except.error (Thrown.cacheFound r p)) =
      ([Event.invokeHandler], 200, r) := by
  simp [finishTry, catchBlock, hu]

/-- A cache short-circuit with an undefined `result` delivers the recorded
error payload at status 500, touching nothing else. -/
theorem finishTry_cacheFound_undef (ic : Option String) (r p : JVal)
    (hu : r.isUndef = true) :
    finishTry (ic, Except.error (Thrown.cacheFound r p)) =
      ([Event.invokeHandler], 500, JVal.obj [("error", p)]) := by
  simp [finishTry, catchBlock, hu]

/-- The `{ error: ... }` payload is never task-shaped, so it is always
delivered with the `"response"` type. -/
theorem responseKind_errObj (p : JVal) :
    responseKind (JVal.obj [("error", p)]) = "response" := rfl

/-- A trace of the reach shape counts zero for any predicate that holds for
none of its framing events and none of the try-block events. -/
theorem reachTrace_countP_zero (env : Env) (action : String) (sig : String)
    (evs : List Event) (st : Nat) (out : JVal) (pred : Event → Bool)
    (hres : pred (Event.resolveHandler action) = false)
    (hval : ∀ s, pred (Event.validateSig s) = false)
    (hder : pred Event.deriveCache = false)
    (hsend : ∀ k s p, pred (Event.send k s p) = false)
    (hdet : pred Event.detach = false)
    (hevs : evs.countP pred = 0) :
    (Event.resolveHandler action :: (sigEvents env action sig ++
      Event.deriveCache :: (evs ++ respondEvents st out))).countP pred = 0 := by
  simp [List.countP_cons, List.countP_append, hres, hder, hevs,
    sigEvents_countP_zero env action sig pred hval,
    respondEvents_countP_zero st out pred hsend hdet]

/-- Events other than sends contribute nothing to the send-triple list. -/
theorem sends_cons_resolveHandler (a : String) (l : List Event) :
    sends (Event.resolveHandler a :: l) = sends l := rfl

/-- The cache-derivation event contributes no send triple. -/
theorem sends_cons_deriveCache (l : List Event) :
    sends (Event.deriveCache :: l) = sends l := rfl

/-- `sends` distributes over concatenation. -/
theorem sends_append (l1 l2 : List Event) :
    sends (l1 ++ l2) = sends l1 ++ sends l2 := by
  unfold sends
  exact List.filterMap_append l1 l2 _

/-- The respond step produces exactly its own classified triple. -/
theorem sends_respondEvents (st : Nat) (out : JVal) :
    sends (respondEvents st out) = [(responseKind out, st, out)] := rfl

/-- The send triples of a reach-shaped trace whose try-block fragment sends
nothing: exactly the one terminal send. -/
theorem sends_reachTrace (env : Env) (action : String) (sig : String)
    (evs : List Event) (st : Nat) (out : JVal) (hevs : sends evs = []) :
    sends (Event.resolveHandler action :: (sigEvents env action sig ++
      Event.deriveCache :: (evs ++ respondEvents st out))) =
      [(responseKind out, st, out)] := by
  rw [sends_cons_resolveHandler, sends_append, sends_sigEvents,
    sends_cons_deriveCache, sends_append, hevs, sends_respondEvents]
  rfl

/-! ### Claim theorems -/

/-- C6: an invocation with action `"task"` is routed to the dedicated
`handleTask` resumption path unconditionally and `handleAction` returns: the
trace contains no handler resolution, no signature validation, no migration,
no cache derivation, and no generic respond/error path — only the task
redirect — and nothing escapes uncaught. -/
theorem c6_task_redirection (env : Env) (input : JVal) (sig : String) :
    handleAction env "task" input sig = ([Event.handleTask input], none) := rfl

/-- C7: within one invocation a handler obtains at most one inline dedup
entry.  The first `requestCache` call with no prior record creates the entry;
any call while an entry exists fails fast with the programmer error
`Error("Request cache is already set up")` — an ordinary error, distinct from
the `CacheFoundError` backend signal — and leaves the state unchanged, so no
second entry is ever created. -/
theorem c7_single_inline_entry :
    (∀ lookup key, lookup key = InlineResult.absent →
      requestCache lookup none key = (some key, Except.ok ()))
    ∧ (∀ lookup prev key,
      requestCache lookup (some prev) key =
        (some prev, Except.error (Thrown.err requestCacheAlreadySetUpErr))) := by
  constructor
  · intro lookup key h
    unfold requestCache
    rw [h]
    rfl
  · intro lookup prev key
    rfl

/-- C7 witness: a concrete backend with no records; the first call creates
the entry for `"k"`, the second call fails fast with the programmer error and
keeps the first entry. -/
theorem c7_single_inline_entry_witness :
    requestCache (fun _ => InlineResult.absent) none "k" = (some "k", Except.ok ())
    ∧ requestCache (fun _ => InlineResult.absent) (some "k") "k2" =
      (some "k", Except.error (Thrown.err requestCacheAlreadySetUpErr)) :=
  ⟨c7_single_inline_entry.1 (fun _ => InlineResult.absent) "k" rfl,
   c7_single_inline_entry.2 (fun _ => InlineResult.absent) "k" "k2"⟩

/-- C1 counterexample: the claim asserts exactly one terminal send on every
path, including a handler-resolution failure (step 2); but
`addon.getActionHandler` is called before the responder exists and outside
the `try`, so at this concrete input `handleAction` performs zero sends and
re-raises the `UnknownActionError` to its caller. -/
theorem c1_resolution_failure_sends_nothing :
    (handleAction resolveFailEnv "foo" JVal.null "s").1.countP Event.isSend = 0
    ∧ (handleAction resolveFailEnv "foo" JVal.null "s").2 = some unknownActionErr :=
  ⟨rfl, rfl⟩

/-- C1 (amended): on every path that reaches the dispatcher's `try` block —
normal success, task-shaped output, cache short-circuit, handler failure,
null-result promotion, response-migration failure — `responder.send` is
invoked exactly once and nothing escapes `handleAction` uncaught; and the
`Responder` accepts the first terminal send and rejects a second one.
Failures arising earlier (handler resolution, signature validation, request
migration) escape `handleAction` before the responder exists, with no send. -/
theorem c1_exactly_one_send_after_reaching_try (env : Env) (action : String)
    (input : JVal) (sig : String) (handler : HandlerProg) (d : Option JVal)
    (input2 : JVal) (hne : action ≠ "task")
    (hres : env.getActionHandler action = Except.ok handler)
    (hsig : sigResult env action sig = Except.ok d)
    (hmig : selectReqTransform env.migrations (vtorOf env action) action input =
      Except.ok input2) :
    (handleAction env action input sig).1.countP Event.isSend = 1
    ∧ (handleAction env action input sig).2 = none
    ∧ responderSend { sent := false } = Except.ok { sent := true }
    ∧ responderSend { sent := true } = Except.error respAlreadySentErr := by
  rw [handleAction_reach env action input sig handler d input2 hne hres hsig hmig]
  refine ⟨?_, rfl, rfl, rfl⟩
  simp [List.countP_cons, List.countP_append, Event.isSend,
    sigEvents_countP_isSend, finishTry_countP_isSend, respondEvents_countP_isSend,
    runTry]

/-- C1 witness: a plain successful invocation of the `"play"` action in the
baseline environment reaches the `try` block and sends exactly once. -/
theorem c1_exactly_one_send_witness :
    (handleAction baseEnv "play" JVal.null "s").1.countP Event.isSend = 1
    ∧ (handleAction baseEnv "play" JVal.null "s").2 = none
    ∧ responderSend { sent := false } = Except.ok { sent := true }
    ∧ responderSend { sent := true } = Except.error respAlreadySentErr :=
  c1_exactly_one_send_after_reaching_try baseEnv "play" JVal.null "s"
    (HandlerProg.ret JVal.null) (some (JVal.str "sigdata")) JVal.null
    (by decide) rfl rfl rfl

/-- C2 counterexample: the claim asserts that a `ValidationError` from
request migration (step 4) is delivered as a 500 response and logged; but the
request transform runs outside the `try` block, so at this concrete input the
error escapes `handleAction` uncaught, with no send and no log. -/
theorem c2_migration_failure_escapes_unresponded :
    handleAction reqMigFailEnv "play" JVal.null "s" =
      ([Event.resolveHandler "play", Event.validateSig "s"], some validationErr)
    ∧ (handleAction reqMigFailEnv "play" JVal.null "s").1.countP Event.isSend = 0
    ∧ (handleAction reqMigFailEnv "play" JVal.null "s").1.countP Event.isLogWarn = 0 :=
  ⟨rfl, rfl, rfl⟩

/-- C2 (amended): a failure raised inside the `try` block — a handler error,
the null-result promotion, a response-migration `ValidationError`, or the
misuse error of the dedup capability — that is not a cache short-circuit is
delivered with status 500 and payload `{ error: error.message || error }` via
the `"response"` type, and is logged to `console.warn` exactly unless its
`noBacktraceLog` property is true, as `SilentError` sets it.  Failures from
handler resolution, signature validation, and request migration instead
escape `handleAction` uncaught, before the responder exists. -/
theorem c2_error_respond :
    (∀ (env : Env) (action : String) (input : JVal) (sig : String)
      (handler : HandlerProg) (d : Option JVal) (input2 : JVal)
      (ic : Option String) (e : JErr),
      action ≠ "task" →
      env.getActionHandler action = Except.ok handler →
      sigResult env action sig = Except.ok d →
      selectReqTransform env.migrations (vtorOf env action) action input =
        Except.ok input2 →
      invokeOutcome env action input2 handler = (ic, Except.error (Thrown.err e)) →
      handleAction env action input sig =
        (Event.resolveHandler action :: (sigEvents env action sig ++
          Event.deriveCache :: ((Event.invokeHandler ::
            (setErrorEvents ic e ++ warnEvents e)) ++
            respondEvents 500 (errPayload e))),
         none))
    ∧ (∀ e : JErr, warnEvents e = if e.noBacktraceLog then [] else [Event.logWarn e])
    ∧ (∀ m : String, (SilentError m).noBacktraceLog = true)
    ∧ (∀ e : JErr, responseKind (errPayload e) = "response")
    ∧ (∀ (env : Env) (action : String) (input : JVal) (sig : String) (e : JErr),
      action ≠ "task" →
      env.getActionHandler action = Except.error e →
      handleAction env action input sig = ([Event.resolveHandler action], some e)) := by
  refine ⟨?_, fun e => rfl, fun m => rfl, fun e => rfl, ?_⟩
  · intro env action input sig handler d input2 ic e hne hres hsig hmig hio
    rw [handleAction_reach env action input sig handler d input2 hne hres hsig hmig,
      runTry_eq env action input2 handler ic (Except.error (Thrown.err e)) hio,
      finishTry_err]
  · intro env action input sig e hne hres
    exact handleAction_resolveErr env action input sig e hne hres

/-- C3 counterexample: the claim asserts status 200 with the cached value
whenever a prior success was recorded; but the dispatcher discriminates only
on the `result` field being defined, so a recorded success whose stored value
is `undefined` is served as a status-500 failure with payload
`{ error: undefined }` at this concrete input. -/
theorem c3_prior_success_undefined_served_as_500 :
    handleAction cacheHitUndefEnv "play" JVal.null "s" =
      (Event.resolveHandler "play" :: (sigEvents cacheHitUndefEnv "play" "s" ++
        Event.deriveCache :: ([Event.invokeHandler] ++
          respondEvents 500 (JVal.obj [("error", JVal.undef)]))),
       none)
    ∧ cacheHitUndefEnv.inlineLookup "k" = InlineResult.found JVal.undef :=
  ⟨rfl, rfl⟩

/-- C3 (amended): when the inline dedup lookup signals a short-circuit
(`CacheFoundError`), the pipeline bypasses the rest of the handler, response
migration, and outcome recording, and responds immediately: with status 200
and the cached value when the short-circuit carries a defined result, or with
status 500 and the recorded error payload verbatim (`{ error: <cached error> }`)
when the result field is undefined — which covers every recorded failure and
also a recorded success whose stored value was `undefined`.  The
short-circuit performs no `.set`, no `.setError`, and is never logged. -/
theorem c3_short_circuit_response (env : Env) (action : String) (input : JVal)
    (sig : String) (handler : HandlerProg) (d : Option JVal) (input2 : JVal)
    (ic : Option String) (r p : JVal) (hne : action ≠ "task")
    (hres : env.getActionHandler action = Except.ok handler)
    (hsig : sigResult env action sig = Except.ok d)
    (hmig : selectReqTransform env.migrations (vtorOf env action) action input =
      Except.ok input2)
    (hio : invokeOutcome env action input2 handler =
      (ic, Except.error (Thrown.cacheFound r p))) :
    (r.isUndef = false →
      handleAction env action input sig =
        (Event.resolveHandler action :: (sigEvents env action sig ++
          Event.deriveCache :: ([Event.invokeHandler] ++ respondEvents 200 r)),
         none))
    ∧ (r.isUndef = true →
      handleAction env action input sig =
        (Event.resolveHandler action :: (sigEvents env action sig ++
          Event.deriveCache :: ([Event.invokeHandler] ++
            respondEvents 500 (JVal.obj [("error", p)]))),
         none))
    ∧ (handleAction env action input sig).1.countP Event.isInlineSet = 0
    ∧ (handleAction env action input sig).1.countP Event.isInlineSetError = 0
    ∧ (handleAction env action input sig).1.countP Event.isLogWarn = 0 := by
  have hbase := handleAction_reach env action input sig handler d input2 hne hres hsig hmig
  have hrt := runTry_eq env action input2 handler ic
    (Except.error (Thrown.cacheFound r p)) hio
  refine ⟨?_, ?_, ?_, ?_, ?_⟩
  · intro hu
    rw [hbase, hrt, finishTry_cacheFound_defined ic r p hu]
  · intro hu
    rw [hbase, hrt, finishTry_cacheFound_undef ic r p hu]
  all_goals
    rw [hbase, hrt]
    cases hu : r.isUndef with
    | false =>
      rw [finishTry_cacheFound_defined ic r p hu]
      exact reachTrace_countP_zero env action sig [Event.invokeHandler] _ _ _
        rfl (fun _ => rfl) rfl (fun _ _ _ => rfl) rfl rfl
    | true =>
      rw [finishTry_cacheFound_undef ic r p hu]
      exact reachTrace_countP_zero env action sig [Event.invokeHandler] _ _ _
        rfl (fun _ => rfl) rfl (fun _ _ _ => rfl) rfl rfl

/-- C3 witness: a short-circuit over a recorded success `"cached"` responds
200 with that value; one over a recorded failure `"prior failure"` responds
500 with the recorded payload verbatim. -/
theorem c3_short_circuit_witness :
    handleAction cacheHitEnv "play" JVal.null "s" =
      (Event.resolveHandler "play" :: (sigEvents cacheHitEnv "play" "s" ++
        Event.deriveCache :: ([Event.invokeHandler] ++
          respondEvents 200 (JVal.str "cached"))),
       none)
    ∧ handleAction cacheHitErrEnv "play" JVal.null "s" =
      (Event.resolveHandler "play" :: (sigEvents cacheHitErrEnv "play" "s" ++
        Event.deriveCache :: ([Event.invokeHandler] ++
          respondEvents 500 (JVal.obj [("error", JVal.str "prior failure")]))),
       none) :=
  ⟨(c3_short_circuit_response cacheHitEnv "play" JVal.null "s"
      (HandlerProg.callRequestCache "k" (HandlerProg.ret (JVal.str "out")))
      (some (JVal.str "sigdata")) JVal.null none (JVal.str "cached") JVal.undef
      (by decide) rfl rfl rfl rfl).1 rfl,
   (c3_short_circuit_response cacheHitErrEnv "play" JVal.null "s"
      (HandlerProg.callRequestCache "k" (HandlerProg.ret (JVal.str "out")))
      (some (JVal.str "sigdata")) JVal.null none JVal.undef
      (JVal.str "prior failure")
      (by decide) rfl rfl rfl rfl).2.1 rfl⟩

/-- C10: the dispatcher distinguishes a short-circuit success from a
short-circuit failure solely by whether the `CacheFoundError`'s `result`
field is defined: an undefined result yields status 500 with
`{ error: <the entry error field> }`, a defined result yields status 200 with
that result; and the modelled inline lookup maps a recorded success of
`undefined` to the very same `CacheFoundError` as a recorded failure whose
payload is `undefined`, so the two are indistinguishable at the response
level. -/
theorem c10_short_circuit_discrimination (env : Env) (action : String)
    (input : JVal) (sig : String) (handler : HandlerProg) (d : Option JVal)
    (input2 : JVal) (ic : Option String) (r p : JVal) (hne : action ≠ "task")
    (hres : env.getActionHandler action = Except.ok handler)
    (hsig : sigResult env action sig = Except.ok d)
    (hmig : selectReqTransform env.migrations (vtorOf env action) action input =
      Except.ok input2)
    (hio : invokeOutcome env action input2 handler =
      (ic, Except.error (Thrown.cacheFound r p))) :
    (r.isUndef = true →
      sends (handleAction env action input sig).1 =
        [("response", 500, JVal.obj [("error", p)])])
    ∧ (r.isUndef = false →
      sends (handleAction env action input sig).1 = [(responseKind r, 200, r)])
    ∧ inlineThrow (InlineResult.found JVal.undef) =
      inlineThrow (InlineResult.foundError JVal.undef) := by
  have hbase := handleAction_reach env action input sig handler d input2 hne hres hsig hmig
  have hrt := runTry_eq env action input2 handler ic
    (Except.error (Thrown.cacheFound r p)) hio
  refine ⟨?_, ?_, rfl⟩
  · intro hu
    rw [hbase, hrt, finishTry_cacheFound_undef ic r p hu]
    exact (sends_reachTrace env action sig [Event.invokeHandler] 500
      (JVal.obj [("error", p)]) rfl).trans (by rw [responseKind_errObj])
  · intro hu
    rw [hbase, hrt, finishTry_cacheFound_defined ic r p hu]
    exact sends_reachTrace env action sig [Event.invokeHandler] 200 r rfl

/-- C10 witness: the defined-result branch at a concrete recorded success. -/
theorem c10_short_circuit_discrimination_witness :
    sends (handleAction cacheHitEnv "catalog" JVal.null "s").1 =
      [(responseKind (JVal.str "cached"), 200, JVal.str "cached")] :=
  (c10_short_circuit_discrimination cacheHitEnv "catalog" JVal.null "s"
    (HandlerProg.callRequestCache "k" (HandlerProg.ret (JVal.str "out")))
    (some (JVal.str "sigdata")) JVal.null none (JVal.str "cached") JVal.undef
    (by decide) rfl rfl rfl rfl).2.1 rfl

/-- C4: when the request-dedup helper was engaged (an inline entry was
created in the Absent state for key `k`) and no short-circuit occurred, a
completed pipeline records the final post-migration output into the entry via
`.set` before the terminal send, and any ordinary failure after the handler
was invoked — a handler error, the null-result promotion, or a response
`ValidationError` — is recorded into the entry via `.setError` before the 500
response is sent. -/
theorem c4_dedup_outcome_recorded :
    (∀ (env : Env) (action : String) (input : JVal) (sig : String)
      (handler : HandlerProg) (d : Option JVal) (input2 : JVal) (k : String)
      (w : JVal),
      action ≠ "task" →
      env.getActionHandler action = Except.ok handler →
      sigResult env action sig = Except.ok d →
      selectReqTransform env.migrations (vtorOf env action) action input =
        Except.ok input2 →
      invokeOutcome env action input2 handler = (some k, Except.ok w) →
      handleAction env action input sig =
        (Event.resolveHandler action :: (sigEvents env action sig ++
          Event.deriveCache :: ((Event.invokeHandler :: [Event.inlineSet k w]) ++
            respondEvents 200 w)),
         none))
    ∧ (∀ (env : Env) (action : String) (input : JVal) (sig : String)
      (handler : HandlerProg) (d : Option JVal) (input2 : JVal) (k : String)
      (e : JErr),
      action ≠ "task" →
      env.getActionHandler action = Except.ok handler →
      sigResult env action sig = Except.ok d →
      selectReqTransform env.migrations (vtorOf env action) action input =
        Except.ok input2 →
      invokeOutcome env action input2 handler =
        (some k, Except.error (Thrown.err e)) →
      handleAction env action input sig =
        (Event.resolveHandler action :: (sigEvents env action sig ++
          Event.deriveCache :: ((Event.invokeHandler ::
            ([Event.inlineSetError k e] ++ warnEvents e)) ++
            respondEvents 500 (errPayload e))),
         none)) := by
  constructor
  · intro env action input sig handler d input2 k w hne hres hsig hmig hio
    rw [handleAction_reach env action input sig handler d input2 hne hres hsig hmig,
      runTry_eq env action input2 handler (some k) (Except.ok w) hio,
      finishTry_ok]
    rfl
  · intro env action input sig handler d input2 k e hne hres hsig hmig hio
    rw [handleAction_reach env action input sig handler d input2 hne hres hsig hmig,
      runTry_eq env action input2 handler (some k) (Except.error (Thrown.err e)) hio,
      finishTry_err]
    rfl

/-- C4 witness: an engaged entry for key `"k"` receives `.set("out")` before
the 200 send on success, and `.setError(Error("boom"))` before the 500 send
on a handler failure. -/
theorem c4_dedup_outcome_recorded_witness :
    handleAction dedupEnv "play" JVal.null "s" =
      (Event.resolveHandler "play" :: (sigEvents dedupEnv "play" "s" ++
        Event.deriveCache :: ((Event.invokeHandler ::
          [Event.inlineSet "k" (JVal.str "out")]) ++
          respondEvents 200 (JVal.str "out"))),
       none)
    ∧ handleAction dedupFailEnv "play" JVal.null "s" =
      (Event.resolveHandler "play" :: (sigEvents dedupFailEnv "play" "s" ++
        Event.deriveCache :: ((Event.invokeHandler ::
          ([Event.inlineSetError "k" handlerBoomErr] ++ warnEvents handlerBoomErr)) ++
          respondEvents 500 (errPayload handlerBoomErr))),
       none) :=
  ⟨c4_dedup_outcome_recorded.1 dedupEnv "play" JVal.null "s"
      (HandlerProg.callRequestCache "k" (HandlerProg.ret (JVal.str "out")))
      (some (JVal.str "sigdata")) JVal.null "k" (JVal.str "out")
      (by decide) rfl rfl rfl rfl,
   c4_dedup_outcome_recorded.2 dedupFailEnv "play" JVal.null "s"
      (HandlerProg.callRequestCache "k" (HandlerProg.throwErr handlerBoomErr))
      (some (JVal.str "sigdata")) JVal.null "k" handlerBoomErr
      (by decide) rfl rfl rfl rfl⟩

/-- C2 witness: a handler that throws `Error("boom")` in the baseline
environment yields the 500 `{ error: "boom" }` response with a log event, and
a missing handler escapes uncaught. -/
theorem c2_error_respond_witness :
    handleAction throwingEnv "play" JVal.null "s" =
      (Event.resolveHandler "play" :: (sigEvents throwingEnv "play" "s" ++
        Event.deriveCache :: ((Event.invokeHandler ::
          (setErrorEvents none handlerBoomErr ++ warnEvents handlerBoomErr)) ++
          respondEvents 500 (errPayload handlerBoomErr))),
       none)
    ∧ handleAction resolveFailEnv "bogus" JVal.null "s" =
      ([Event.resolveHandler "bogus"], some unknownActionErr) :=
  ⟨c2_error_respond.1 throwingEnv "play" JVal.null "s"
      (HandlerProg.throwErr handlerBoomErr) (some (JVal.str "sigdata")) JVal.null
      none handlerBoomErr (by decide) rfl rfl rfl rfl,
   c2_error_respond.2.2.2.2 resolveFailEnv "bogus" JVal.null "s" unknownActionErr
      (by decide) rfl⟩

/-- The try/catch fragment never validates a signature. -/
theorem runTry_countP_isValidateSig (env : Env) (action : String)
    (input2 : JVal) (handler : HandlerProg) :
    ((runTry env action input2 handler).1).countP Event.isValidateSig = 0 :=
  finishTry_countP_isValidateSig _

/-- After handler resolution, the number of `validateSignature` calls is
determined solely by the exemption condition, on every branch of the
pipeline. -/
theorem afterResolve_countP_isValidateSig (env : Env) (action : String)
    (input : JVal) (sig : String) (handler : HandlerProg) :
    ((afterResolve env action input sig handler).1).countP Event.isValidateSig =
      if exemptFromAuth env action then 0 else 1 := by
  unfold afterResolve
  cases hs : sigResult env action sig with
  | error e => simp [sigEvents_countP_isValidateSig]
  | ok d =>
    cases hm : selectReqTransform env.migrations (vtorOf env action) action input with
    | error e => simp [sigEvents_countP_isValidateSig]
    | ok input2 =>
      rw [List.countP_append, List.countP_cons, List.countP_append,
        sigEvents_countP_isValidateSig, runTry_countP_isValidateSig,
        respondEvents_countP_zero _ _ Event.isValidateSig (fun _ _ _ => rfl) rfl]
      simp [Event.isValidateSig]

/-- C5 counterexample: the claim requires `validateSignature` to be called
for every action outside the exemption set (bypass flag, `"selftest"`,
`"addon"`, repository-`"repository"`); the action `"task"` is outside that
set, yet at this concrete input signature validation is never invoked — the
task redirect returns first. -/
theorem c5_task_action_never_validated :
    (handleAction baseEnv "task" JVal.null "s").1.countP Event.isValidateSig = 0
    ∧ exemptFromAuth baseEnv "task" = false :=
  ⟨rfl, rfl⟩

/-- C5 (amended): for an invocation whose action is not the reserved
`"task"` action and whose handler resolution succeeds, signature validation
is skipped exactly when the bypass flag is set, the action is `"selftest"`
or `"addon"`, or the addon type is `"repository"` and the action is
`"repository"`; under an exemption the trusted signature data is `null`.
For every other such action `validateSignature` runs on the supplied
signature, and its failure escapes before the handler is ever invoked. -/
theorem c5_auth_exemption (env : Env) (action : String) (input : JVal)
    (sig : String) (handler : HandlerProg) (hne : action ≠ "task")
    (hres : env.getActionHandler action = Except.ok handler) :
    ((handleAction env action input sig).1.countP Event.isValidateSig =
      if exemptFromAuth env action then 0 else 1)
    ∧ (exemptFromAuth env action = true → sigResult env action sig = Except.ok none)
    ∧ (∀ e : JErr, exemptFromAuth env action = false →
      env.validateSignature sig = Except.error e →
      handleAction env action input sig =
        ([Event.resolveHandler action, Event.validateSig sig], some e)
      ∧ (handleAction env action input sig).1.countP Event.isInvoke = 0) := by
  refine ⟨?_, ?_, ?_⟩
  · rw [handleAction_resolveOk env action input sig handler hne hres]
    simp [List.countP_cons, Event.isValidateSig, afterResolve_countP_isValidateSig]
  · intro h
    simp [sigResult, h]
  · intro e hex hval
    have hs : sigResult env action sig = Except.error e := by
      simp [sigResult, hex, hval]
    have heq : handleAction env action input sig =
        ([Event.resolveHandler action, Event.validateSig sig], some e) := by
      rw [handleAction_resolveOk env action input sig handler hne hres,
        afterResolve_sigErr env action input sig handler e hs]
      simp [sigEvents, hex]
    refine ⟨heq, ?_⟩
    rw [heq]
    rfl

/-- C5 witness: in the baseline environment the `"play"` action validates the
signature exactly once, while the exempt `"selftest"` action never does and
receives `null` signature data. -/
theorem c5_auth_exemption_witness :
    (handleAction baseEnv "play" JVal.null "s").1.countP Event.isValidateSig = 1
    ∧ (handleAction baseEnv "selftest" JVal.null "s").1.countP Event.isValidateSig = 0
    ∧ sigResult baseEnv "selftest" "s" = Except.ok none :=
  ⟨(c5_auth_exemption baseEnv "play" JVal.null "s" (HandlerProg.ret JVal.null)
      (by decide) rfl).1,
   (c5_auth_exemption baseEnv "selftest" JVal.null "s" (HandlerProg.ret JVal.null)
      (by decide) rfl).1,
   (c5_auth_exemption baseEnv "selftest" JVal.null "s" (HandlerProg.ret JVal.null)
      (by decide) rfl).2.1 rfl⟩

/-- C8: for the actions `"resolve"` and `"captcha"`, a handler that returns
`null` yields a status-500 response with payload
`{ error: "Nothing found" }` (recording the failure into an engaged inline
entry and logging it, since the promoted error is an ordinary one); for every
other action a handler returning `null` is a legitimate successful output,
delivered with status 200 after response migration. -/
theorem c8_null_promotion :
    (∀ (env : Env) (action : String) (input : JVal) (sig : String)
      (handler : HandlerProg) (d : Option JVal) (input2 : JVal)
      (ic : Option String),
      action ≠ "task" →
      env.getActionHandler action = Except.ok handler →
      sigResult env action sig = Except.ok d →
      selectReqTransform env.migrations (vtorOf env action) action input =
        Except.ok input2 →
      (action = "resolve" ∨ action = "captcha") →
      runHandler env.inlineLookup handler none = (ic, Except.ok JVal.null) →
      handleAction env action input sig =
        (Event.resolveHandler action :: (sigEvents env action sig ++
          Event.deriveCache :: ((Event.invokeHandler ::
            (setErrorEvents ic nothingFoundErr ++ [Event.logWarn nothingFoundErr])) ++
            respondEvents 500 (JVal.obj [("error", JVal.str "Nothing found")]))),
         none))
    ∧ (∀ (env : Env) (action : String) (input : JVal) (sig : String)
      (handler : HandlerProg) (d : Option JVal) (input2 : JVal)
      (ic : Option String) (w : JVal),
      action ≠ "task" →
      env.getActionHandler action = Except.ok handler →
      sigResult env action sig = Except.ok d →
      selectReqTransform env.migrations (vtorOf env action) action input =
        Except.ok input2 →
      action ≠ "resolve" →
      action ≠ "captcha" →
      runHandler env.inlineLookup handler none = (ic, Except.ok JVal.null) →
      selectRespTransform env.migrations (vtorOf env action) action input2 JVal.null =
        Except.ok w →
      handleAction env action input sig =
        (Event.resolveHandler action :: (sigEvents env action sig ++
          Event.deriveCache :: ((Event.invokeHandler :: setEvents ic w) ++
            respondEvents 200 w)),
         none)) := by
  constructor
  · intro env action input sig handler d input2 ic hne hres hsig hmig hact hrun
    have hnp : nullPromote action (Except.ok JVal.null) =
        Except.error (Thrown.err nothingFoundErr) := by
      unfold nullPromote
      rw [if_pos hact]
    have hio : invokeOutcome env action input2 handler =
        (ic, Except.error (Thrown.err nothingFoundErr)) := by
      unfold invokeOutcome
      rw [hrun]
      dsimp only
      rw [hnp]
      rfl
    rw [handleAction_reach env action input sig handler d input2 hne hres hsig hmig,
      runTry_eq env action input2 handler ic
        (Except.error (Thrown.err nothingFoundErr)) hio,
      finishTry_err]
    rfl
  · intro env action input sig handler d input2 ic w hne hres hsig hmig hnr hnc hrun hresp
    have hnot : ¬(action = "resolve" ∨ action = "captcha") :=
      fun h => h.elim hnr hnc
    have hnp : nullPromote action (Except.ok JVal.null) = Except.ok JVal.null := by
      unfold nullPromote
      rw [if_neg hnot]
    have hio : invokeOutcome env action input2 handler = (ic, Except.ok w) := by
      unfold invokeOutcome
      rw [hrun]
      dsimp only
      rw [hnp]
      simp only [migrateResponse]
      rw [hresp]
    rw [handleAction_reach env action input sig handler d input2 hne hres hsig hmig,
      runTry_eq env action input2 handler ic (Except.ok w) hio,
      finishTry_ok]

/-- C8 witness: in the baseline environment (whose handlers return `null`),
the `"resolve"` action yields the 500 `{ error: "Nothing found" }` response
while the `"play"` action delivers `null` at status 200. -/
theorem c8_null_promotion_witness :
    handleAction baseEnv "resolve" JVal.null "s" =
      (Event.resolveHandler "resolve" :: (sigEvents baseEnv "resolve" "s" ++
        Event.deriveCache :: ((Event.invokeHandler ::
          (setErrorEvents none nothingFoundErr ++ [Event.logWarn nothingFoundErr])) ++
          respondEvents 500 (JVal.obj [("error", JVal.str "Nothing found")]))),
       none)
    ∧ handleAction baseEnv "play" JVal.null "s" =
      (Event.resolveHandler "play" :: (sigEvents baseEnv "play" "s" ++
        Event.deriveCache :: ((Event.invokeHandler :: setEvents none JVal.null) ++
          respondEvents 200 JVal.null)),
       none) :=
  ⟨c8_null_promotion.1 baseEnv "resolve" JVal.null "s" (HandlerProg.ret JVal.null)
      (some (JVal.str "sigdata")) JVal.null none
      (by decide) rfl rfl rfl (Or.inl rfl) rfl,
   c8_null_promotion.2 baseEnv "play" JVal.null "s" (HandlerProg.ret JVal.null)
      (some (JVal.str "sigdata")) JVal.null none JVal.null
      (by decide) rfl rfl rfl (by decide) (by decide) rfl rfl⟩

/-- C9: for an action with no registered migration entry, the dispatcher's
request and response transforms are exactly the generic schema validator's
transforms; for an action whose registered entry carries both transforms (as
the specification's MigrationEntry does), the entry's transforms are used
instead, with no blending within one invocation. -/
theorem c9_migration_fallback :
    (∀ (migs : String → Option MigEntry) (vtor : Validator) (action : String),
      migs action = none →
      selectReqTransform migs vtor action = vtor.request
      ∧ selectRespTransform migs vtor action = fun _ o => vtor.response o)
    ∧ (∀ (migs : String → Option MigEntry) (vtor : Validator) (action : String)
      (f : JVal → Except JErr JVal) (g : JVal → JVal → Except JErr JVal),
      migs action = some { request := some f, response := some g } →
      selectReqTransform migs vtor action = f
      ∧ selectRespTransform migs vtor action = g) := by
  constructor
  · intro migs vtor action h
    constructor
    · unfold selectReqTransform
      rw [h]
    · unfold selectRespTransform
      rw [h]
  · intro migs vtor action f g h
    constructor
    · unfold selectReqTransform
      rw [h]
    · unfold selectRespTransform
      rw [h]

/-- C9 witness: a registry with a fully populated entry for `"item"` only.
The `"play"` action falls back to the schema validator's transforms; the
`"item"` action uses the entry's transforms for both directions. -/
theorem c9_migration_fallback_witness :
    (selectReqTransform sampleMigs idValidator "play" = idValidator.request
      ∧ selectRespTransform sampleMigs idValidator "play" =
        fun _ o => idValidator.response o)
    ∧ (selectReqTransform sampleMigs idValidator "item" = sampleMigReq
      ∧ selectRespTransform sampleMigs idValidator "item" = sampleMigResp) :=
  ⟨c9_migration_fallback.1 sampleMigs idValidator "play" rfl,
   c9_migration_fallback.2 sampleMigs idValidator "item" sampleMigReq
     sampleMigResp rfl⟩

end Engine
